import Mathlib

/-
  Verification development for the bdv-api repository.

  Shallow embedding of the risk-management control loop and
  conditional-order engine:
    - routes/config.py   (ConfigStore: execution mode, risk mode, daily cap)
    - routes/monitor.py  (ControlLoop: monitor_tick, get_risk_params,
                          _process_pending_trades, _pick_trade_from_recommend)
    - routes/pending_trades.py (PendingOrderBook: PENDING_TRADES list,
                          add_pending_trade)

  Python floats are modelled as rationals (ℚ); the claims under study only
  compare these values, they never depend on binary rounding.  Timestamps
  (datetime values) are modelled as integers with the usual order.
-/

namespace BDV

/-! ### Python string helpers

The repository lowercases and strips ASCII mode/suggestion strings
(str.lower(), str.strip()).  These are modelled directly on the character
list so that concrete instances reduce in the kernel. -/

/-- ASCII lowercase of one character, as Python str.lower acts on the
ASCII strings used by the repository. -/
def py_lower_char (c : Char) : Char :=
  if 65 ≤ c.toNat ∧ c.toNat ≤ 90 then Char.ofNat (c.toNat + 32) else c

/-- Python str.lower on the ASCII strings used by the repository. -/
def py_lower (s : String) : String := ⟨s.data.map py_lower_char⟩

/-- Whitespace test used by the py_strip model. -/
def py_ws (c : Char) : Bool := c = ' ' ∨ c = '\t' ∨ c = '\n' ∨ c = '\r'

/-- Python str.strip: removes leading and trailing whitespace. -/
def py_strip (s : String) : String :=
  ⟨((s.data.dropWhile py_ws).reverse.dropWhile py_ws).reverse⟩

/-! ### routes/config.py -/

/-- ExecutionMode enum from config.py: values "manual" and "auto". -/
inductive ExecutionMode
  | manual
  | auto
deriving DecidableEq

/-- RiskMode enum from config.py: values "low", "medium", "high". -/
inductive RiskMode
  | low
  | medium
  | high
deriving DecidableEq

/-- MAX_TRADES_BY_RISK dict from config.py: {low: 1, medium: 3, high: 5}.
The Python code reads it with .get(risk_mode, 1); the key is always a
RiskMode enum value, so the lookup is total and the default 1 unreachable. -/
def MAX_TRADES_BY_RISK : RiskMode → Int
  | .low => 1
  | .medium => 3
  | .high => 5

/-- ConfigStatus pydantic model from config.py (the process-wide
config_state instance). -/
structure ConfigStatus where
  execution_mode : ExecutionMode := .manual
  risk_mode : RiskMode := .low
  max_trades_per_day : Int := 1
  trades_today : Int := 0
deriving DecidableEq

/-- _sync_max_trades from config.py: overwrites max_trades_per_day with
the fixed lookup for the current risk_mode. -/
def _sync_max_trades (s : ConfigStatus) : ConfigStatus :=
  { s with max_trades_per_day := MAX_TRADES_BY_RISK s.risk_mode }

/-- get_config_status from config.py (GET /config/status): calls
_sync_max_trades on the shared state and returns it. -/
def get_config_status (s : ConfigStatus) : ConfigStatus :=
  _sync_max_trades s

/-! ### get_risk_params (routes/monitor.py) -/

/-- The four risk thresholds returned by get_risk_params in monitor.py. -/
structure RiskParams where
  tp_per_trade : ℚ
  sl_per_trade : ℚ
  daily_target : ℚ
  daily_max_loss : ℚ
deriving DecidableEq

/-- get_risk_params from monitor.py.  The Python source first evaluates
(risk_mode or "low").lower() — a falsy (empty) mode becomes "low" — then
compares against "high" and "medium" and otherwise returns the low-risk
thresholds. -/
def get_risk_params (risk_mode : String) : RiskParams :=
  let m := py_lower (if risk_mode = "" then "low" else risk_mode)
  if m = "high" then
    { tp_per_trade := 30/100, sl_per_trade := 15/100,
      daily_target := 5/100, daily_max_loss := 2/100 }
  else if m = "medium" then
    { tp_per_trade := 20/100, sl_per_trade := 10/100,
      daily_target := 3/100, daily_max_loss := 15/1000 }
  else
    { tp_per_trade := 15/100, sl_per_trade := 8/100,
      daily_target := 2/100, daily_max_loss := 1/100 }

/-! ### routes/pending_trades.py -/

/-- side field of PendingTrade: Literal["buy", "sell"]. -/
inductive Side
  | buy
  | sell
deriving DecidableEq

/-- status field of PendingTrade:
Literal["pending", "triggered", "cancelled", "expired"]. -/
inductive TradeStatus
  | pending
  | triggered
  | cancelled
  | expired
deriving DecidableEq

/-- PendingTrade pydantic model from pending_trades.py.  The constant
field trigger_type (always "price_breakout") is omitted; valid_until is a
UTC timestamp modelled as an integer. -/
structure PendingTrade where
  id : String
  symbol : String
  side : Side
  qty : Int
  trigger_price : ℚ
  max_price : Option ℚ := none
  valid_until : Option Int := none
  risk_mode : String := "medium"
  status : TradeStatus := .pending
deriving DecidableEq

/-- The in-memory book plus the JSON file save_pending_trades writes
(pending_trades.json). -/
structure PendingBookState where
  book : List PendingTrade
  file : List PendingTrade
deriving DecidableEq

/-- Outcome of POST /pending-trades/: the created trade, or the HTTP 400
conflict raised for a duplicate id. -/
inductive AddResult
  | ok (t : PendingTrade)
  | conflict (hstatus : Int) (dup : String)
deriving DecidableEq

/-- add_pending_trade from pending_trades.py (POST /pending-trades/):
raises HTTP 400 if some stored trade already has the submitted id,
otherwise appends the trade and persists the whole book to the file. -/
def add_pending_trade (trade : PendingTrade) (s : PendingBookState) :
    AddResult × PendingBookState :=
  if s.book.any (fun t => t.id == trade.id) then
    (.conflict 400 trade.id, s)
  else
    let book2 := s.book ++ [trade]
    (.ok trade, { book := book2, file := book2 })

/-! ### _process_pending_trades (routes/monitor.py)

PENDING_TRADES in pending_trades.py is a Python list
(PENDING_TRADES: List[PendingTrade] = load_pending_trades()), while
_process_pending_trades iterates list(PENDING_TRADES.values()).  A list
has no .values attribute, so the call raises AttributeError before any
trade is examined.  The store is modelled as either shape so the .values
access itself can be embedded. -/

/-- The runtime shape of the PENDING_TRADES global: in this repository it
is a Python list; a dict keyed by id is the shape .values would need. -/
inductive PyPendingStore
  | pylist (xs : List PendingTrade)
  | pydict (xs : List (String × PendingTrade))
deriving DecidableEq

/-- The Python exception raised when an attribute is missing. -/
inductive PyErr
  | attributeError (attr : String)
deriving DecidableEq

/-- Python attribute access X.values(): succeeds on a dict, raises
AttributeError on a list. -/
def PyPendingStore.values : PyPendingStore → Except PyErr (List PendingTrade)
  | .pydict xs => .ok (xs.map Prod.snd)
  | .pylist _ => .error (.attributeError "values")

/-- One entry of the ejecuciones list built by _process_pending_trades.
Only the fields the claims inspect are kept (id, symbol, side, the
reported status string, and the price at trigger when present). -/
structure ExecRecord where
  id : String
  symbol : String
  side : Side
  rstatus : String
  price_at_trigger : Option ℚ := none
deriving DecidableEq

/-- A market-order submission sent to POST /trade
(_execute_trade_via_http payload: symbol, side, qty). -/
structure Order where
  symbol : String
  side : Side
  qty : Int
deriving DecidableEq

/-- Result of the loop body of _process_pending_trades on one trade: the
(possibly updated) trade, the record appended to ejecuciones if any, and
the order submitted via /trade if any. -/
structure StepOut where
  trade : PendingTrade
  record : Option ExecRecord := none
  order : Option Order := none
deriving DecidableEq

/-- The price/trigger part of the loop body of _process_pending_trades
(monitor.py lines 200-244).  snapshot maps a symbol to the "price" field
of its snapshot entry (absent symbol and null price are both none, and
such trades are skipped).  condition_met is computed exactly as in the
source: only the buy side has a trigger condition
(trigger_price <= price, and price <= max_price when max_price is set);
a sell-side trade never sets condition_met.  When the condition holds:
if allow_execute, submit via /trade and mark triggered, else only report
trigger_detected. -/
def process_one_price (snapshot : List (String × ℚ))
    (allow_execute : Bool) (trade : PendingTrade) : StepOut :=
  match snapshot.lookup trade.symbol with
    | none => { trade := trade }
    | some price =>
      let condition_met : Bool :=
        if trade.side = .buy then
          decide (trade.trigger_price ≤ price) &&
            (match trade.max_price with
             | none => true
             | some mp => decide (price ≤ mp))
        else
          false
      if condition_met = false then
        { trade := trade }
      else if allow_execute then
        { trade := { trade with status := .triggered },
          record := some { id := trade.id, symbol := trade.symbol,
                           side := trade.side, rstatus := "triggered",
                           price_at_trigger := some price },
          order := some { symbol := trade.symbol, side := trade.side,
                          qty := trade.qty } }
      else
        { trade := trade,
          record := some { id := trade.id, symbol := trade.symbol,
                           side := trade.side, rstatus := "trigger_detected",
                           price_at_trigger := some price } }

/-- The loop body of _process_pending_trades on one trade: skip
non-pending trades; if valid_until is set and now is past it, mark
expired; otherwise fall through to the price/trigger logic above. -/
def process_one (now : Int) (snapshot : List (String × ℚ))
    (allow_execute : Bool) (trade : PendingTrade) : StepOut :=
  if trade.status ≠ .pending then
    { trade := trade }
  else
    match trade.valid_until with
    | some vu =>
      if vu < now then
        { trade := { trade with status := .expired },
          record := some { id := trade.id, symbol := trade.symbol,
                           side := trade.side, rstatus := "expired" } }
      else
        process_one_price snapshot allow_execute trade
    | none => process_one_price snapshot allow_execute trade

/-- The iteration of _process_pending_trades over the trades returned by
.values(): collects the ejecuciones records, the updated trades, and the
orders submitted. -/
def process_loop (now : Int) (snapshot : List (String × ℚ))
    (allow_execute : Bool) :
    List PendingTrade → List ExecRecord × List PendingTrade × List Order
  | [] => ([], [], [])
  | t :: ts =>
    let o := process_one now snapshot allow_execute t
    let rest := process_loop now snapshot allow_execute ts
    (o.record.toList ++ rest.1, o.trade :: rest.2.1, o.order.toList ++ rest.2.2)

/-- Rebuilds the store with updated trade records (only reachable in the
dict case, since .values fails on a list). -/
def PyPendingStore.withTrades : PyPendingStore → List PendingTrade → PyPendingStore
  | .pylist _, ts => .pylist ts
  | .pydict xs, ts => .pydict ((xs.map Prod.fst).zip ts)

/-- _process_pending_trades from monitor.py: calls PENDING_TRADES.values()
— which raises AttributeError because PENDING_TRADES is a list — and
otherwise runs the per-trade loop. -/
def _process_pending_trades (now : Int) (store : PyPendingStore)
    (snapshot : List (String × ℚ)) (allow_execute : Bool) :
    Except PyErr (List ExecRecord × PyPendingStore × List Order) :=
  match store.values with
  | .error e => .error e
  | .ok ts =>
    let r := process_loop now snapshot allow_execute ts
    .ok (r.1, store.withTrades r.2.1, r.2.2)

/-! ### monitor_tick (routes/monitor.py) -/

/-- One element of the positions list fetched from the broker:
monitor_tick reads pos.get("symbol") — a missing/falsy symbol, modelled
as "", is skipped — and float(pos.get("unrealized_plpc", 0.0)), whose
parse failures default to 0.0; the resulting number is modelled
directly. -/
structure Position where
  symbol : String
  unrealized_plpc : ℚ
deriving DecidableEq

/-- One entry of the recommendations list in the /recommend payload, as
read by _pick_trade_from_recommend: r.get("symbol") (missing/falsy
modelled as "") and str(r.get("suggestion", "")). -/
structure RecItem where
  symbol : String
  suggestion : String
deriving DecidableEq

/-- The /recommend payload as _pick_trade_from_recommend reads it: the
"recommendations" list when the key holds a list, plus the flat
symbol/suggestion fallback fields. -/
structure RecPayload where
  recommendations : Option (List RecItem) := none
  symbol : String := ""
  suggestion : String := ""
deriving DecidableEq

/-- The {symbol, side} dict returned by _pick_trade_from_recommend. -/
structure Pick where
  symbol : String
  side : String
deriving DecidableEq

/-- The loop inside _pick_trade_from_recommend: the first entry whose
symbol is truthy and whose lowered, stripped suggestion is "buy" or
"sell" becomes the pick; if none matches the result is None. -/
def _pick_from_list : List RecItem → Option Pick
  | [] => none
  | r :: rs =>
    let sug := py_strip (py_lower r.suggestion)
    if r.symbol ≠ "" ∧ (sug = "buy" ∨ sug = "sell") then
      some { symbol := r.symbol, side := sug }
    else
      _pick_from_list rs

/-- _pick_trade_from_recommend from monitor.py: scans the
recommendations list when it is a non-empty list (returning None if no
entry matches, without falling through); otherwise applies the same test
to the flat payload fields. -/
def _pick_trade_from_recommend (p : RecPayload) : Option Pick :=
  match p.recommendations with
  | some (r :: rs) => _pick_from_list (r :: rs)
  | _ =>
    let sug := py_strip (py_lower p.suggestion)
    if p.symbol ≠ "" ∧ (sug = "buy" ∨ sug = "sell") then
      some { symbol := p.symbol, side := sug }
    else
      none

/-- The side strings "buy"/"sell" produced by _pick_trade_from_recommend,
as the Side payload of the /trade call. -/
def side_of_string (s : String) : Side :=
  if s = "sell" then .sell else .buy

/-- The TP/SL loop of monitor_tick (step 3 of the tick): every position
with a truthy symbol whose unrealized_plpc has reached tp_per_trade is
closed with a "Take profit" reason, else one whose unrealized_plpc has
fallen to -sl_per_trade is closed with a "Stop loss" reason.  Collected
as (symbol, reason) pairs; the percent interpolation inside the Python
reason string is elided. -/
def tp_sl_closures (params : RiskParams) : List Position → List (String × String)
  | [] => []
  | p :: ps =>
    let rest := tp_sl_closures params ps
    if p.symbol = "" then rest
    else if params.tp_per_trade ≤ p.unrealized_plpc then
      (p.symbol, "Take profit") :: rest
    else if p.unrealized_plpc ≤ -params.sl_per_trade then
      (p.symbol, "Stop loss") :: rest
    else rest

/-- The auto_entry report of monitor_tick step 5: skipped with reason
max_trades_per_day_reached, skipped with reason no_trade_signal, or
attempted with the picked trade and quantity. -/
inductive AutoEntry
  | skippedCapReached
  | skippedNoSignal
  | attempted (pick : Pick) (qty : Int)
deriving DecidableEq

/-- The actions dict assembled by an auto-mode tick.  Fields not
inspected by any claim (per_trade_params, daily_params, limits, the raw
close_all_response payloads) are omitted. -/
structure TickActions where
  closed_all : Bool := false
  reason_all : Option String := none
  closed_symbols : List (String × String) := []
  pending_trades_executed : List ExecRecord := []
  auto_entry : Option AutoEntry := none
deriving DecidableEq

/-- The inputs one invocation of monitor_tick observes, gathered from
its HTTP collaborators:
  - inside_rth / rth_reason: _is_inside_rth();
  - execution_mode, risk_mode, max_trades_per_day, trades_today: the
    values extracted from get_config_status() with the source defaults
    (str(config.get("execution_mode", "manual")) and so on);
  - equity, last_equity: the account fields from
    get_account_and_positions(), with last_equity defaulting to equity;
  - positions: the open positions from the same call;
  - after_close_time: is_after_close_time();
  - snapshot: _get_snapshot_prices() as symbol-to-price pairs;
  - pending_store: the PENDING_TRADES global (a list in this repository);
  - recommendation: the payload _get_recommendation() would return;
  - now: datetime.utcnow() as read in _process_pending_trades. -/
structure TickEnv where
  inside_rth : Bool
  rth_reason : String
  execution_mode : String
  risk_mode : String
  max_trades_per_day : Int
  trades_today : Int
  equity : ℚ
  last_equity : ℚ
  positions : List Position
  after_close_time : Bool
  snapshot : List (String × ℚ)
  pending_store : PyPendingStore
  recommendation : RecPayload
  now : Int
deriving DecidableEq

/-- The observable outcome of one monitor_tick invocation: the response
(status, reason, actions) plus an effect log — whether the broker
account/positions were fetched, how many close-all calls were made,
which symbols were closed individually, the orders submitted through the
pending-trade path and through auto-entry, whether /recommend was
called, the PENDING_TRADES store after the tick, and the value of the
persisted trades_today counter after the tick. -/
structure TickResult where
  status : String
  reason : Option String := none
  actions : Option TickActions := none
  account_fetched : Bool := false
  close_all_calls : Nat := 0
  close_symbol_calls : List String := []
  pending_orders : List Order := []
  auto_orders : List Order := []
  recommend_called : Bool := false
  pending_store_after : PyPendingStore
  trades_today_after : Int
deriving DecidableEq

/-- monitor_tick from monitor.py (GET /monitor/tick), step by step as in
the source: the RTH guard; the execution-mode gate (before any broker
access); account fetch and pnl_today = equity - last_equity; the three
terminal close-all branches (forced-close hour, daily target, daily max
loss), each returning immediately; the per-position TP/SL loop; the
pending-trades step, whose AttributeError is caught and replaced by an
empty list with the store untouched; and the auto-entry step.

trades_today_after equals the incoming counter on every path: no
statement in monitor_tick or in the /trade handlers it calls writes
config_state.trades_today (config.py assigns it only in
reset_trades_today, which zeroes it, and in _load_config_from_disk). -/
def monitor_tick (env : TickEnv) : TickResult :=
  if env.inside_rth = false then
    { status := "skipped", reason := some env.rth_reason,
      pending_store_after := env.pending_store,
      trades_today_after := env.trades_today }
  else
    let exec_mode := py_lower env.execution_mode
    let risk_mode := py_lower env.risk_mode
    if exec_mode ≠ "auto" then
      { status := "skipped",
        reason := some ("execution_mode=" ++ exec_mode ++ " is not auto"),
        pending_store_after := env.pending_store,
        trades_today_after := env.trades_today }
    else
      let pnl_today := env.equity - env.last_equity
      let params := get_risk_params risk_mode
      let daily_target_abs := env.equity * params.daily_target
      let daily_max_loss_abs := -env.equity * params.daily_max_loss
      if env.positions ≠ [] ∧ env.after_close_time = true then
        { status := "ok", account_fetched := true, close_all_calls := 1,
          actions := some { closed_all := true,
                            reason_all := some "Hora limite 15:45 NY" },
          pending_store_after := env.pending_store,
          trades_today_after := env.trades_today }
      else if env.positions ≠ [] ∧ daily_target_abs ≤ pnl_today then
        { status := "ok", account_fetched := true, close_all_calls := 1,
          actions := some { closed_all := true,
                            reason_all := some "Meta diaria alcanzada" },
          pending_store_after := env.pending_store,
          trades_today_after := env.trades_today }
      else if env.positions ≠ [] ∧ pnl_today ≤ daily_max_loss_abs then
        { status := "ok", account_fetched := true, close_all_calls := 1,
          actions := some { closed_all := true,
                            reason_all := some "Perdida diaria maxima alcanzada" },
          pending_store_after := env.pending_store,
          trades_today_after := env.trades_today }
      else
        let closes := tp_sl_closures params env.positions
        let pending :=
          match _process_pending_trades env.now env.pending_store
              env.snapshot true with
          | .ok r => r
          | .error _ => ([], env.pending_store, [])
        let auto :=
          if env.positions.length = 0 then
            if env.max_trades_per_day ≤ env.trades_today then
              (some AutoEntry.skippedCapReached, false, ([] : List Order))
            else
              match _pick_trade_from_recommend env.recommendation with
              | none => (some AutoEntry.skippedNoSignal, true, ([] : List Order))
              | some pick =>
                (some (AutoEntry.attempted pick 1), true,
                  [{ symbol := pick.symbol, side := side_of_string pick.side,
                     qty := 1 }])
          else
            (none, false, ([] : List Order))
        { status := "ok", account_fetched := true,
          close_symbol_calls := closes.map Prod.fst,
          pending_orders := pending.2.2,
          auto_orders := auto.2.2,
          recommend_called := auto.2.1,
          actions := some { closed_symbols := closes,
                            pending_trades_executed := pending.1,
                            auto_entry := auto.1 },
          pending_store_after := pending.2.1,
          trades_today_after := env.trades_today }

end BDV

/-! ### Concrete instances used by witnesses and counterexamples -/

/-- Concrete book state for the C10 witness: the stored trade and the
submission share the id "pt1". -/
def c10_book : BDV.PendingBookState :=
  { book := [{ id := "pt1", symbol := "SPY", side := .sell, qty := 2,
               trigger_price := 10 }],
    file := [{ id := "pt1", symbol := "SPY", side := .sell, qty := 2,
               trigger_price := 10 }] }

/-- Submission reusing the already-stored id "pt1" for the C10 witness. -/
def c10_trade : BDV.PendingTrade :=
  { id := "pt1", symbol := "QQQ", side := .buy, qty := 1,
    trigger_price := 445 }

/-- Sell-side pending trade for claim C8: trigger_price 50 with
max_price 45; the mirror of the buy-side trigger condition holds at the
quote 48 (48 is at most 50 and at least 45). -/
def c8_trade : BDV.PendingTrade :=
  { id := "s1", symbol := "SPY", side := .sell, qty := 1,
    trigger_price := 50, max_price := some 45 }

/-- Pending trade for claim C9: valid_until 100 has passed at evaluation
time 200 while its price condition is simultaneously satisfied by the
quote 15 (trigger_price 10, no max_price). -/
def c9_trade : BDV.PendingTrade :=
  { id := "p1", symbol := "QQQ", side := .buy, qty := 1,
    trigger_price := 10, valid_until := some 100 }

/-- Tick environment for the C1 witness: inside the session, with
execution_mode "manual", an open position, and a pending trade in the
book. -/
def c1_env : BDV.TickEnv :=
  { inside_rth := true, rth_reason := "inside_rth",
    execution_mode := "manual", risk_mode := "low",
    max_trades_per_day := 1, trades_today := 0,
    equity := 1000, last_equity := 990,
    positions := [{ symbol := "QQQ", unrealized_plpc := 1/4 }],
    after_close_time := true,
    snapshot := [("QQQ", 445)],
    pending_store := .pylist [{ id := "w1", symbol := "QQQ", side := .buy,
                                qty := 1, trigger_price := 440 }],
    recommendation := { recommendations := some [{ symbol := "QQQ", suggestion := "buy" }] },
    now := 50 }

/-- Tick environment for the C2 witness: auto mode, one open position,
and the forced-close time reached. -/
def c2_env : BDV.TickEnv :=
  { inside_rth := true, rth_reason := "inside_rth",
    execution_mode := "auto", risk_mode := "medium",
    max_trades_per_day := 3, trades_today := 0,
    equity := 1000, last_equity := 1000,
    positions := [{ symbol := "NVDA", unrealized_plpc := 1/2 }],
    after_close_time := true,
    snapshot := [("NVDA", 100)],
    pending_store := .pylist [],
    recommendation := {}, now := 50 }

/-- Tick environment for the C3 failing input: auto mode, zero open
positions, trades_today 0 of 1, and a recommendation whose first entry
is a buy pick for QQQ. -/
def c3_env : BDV.TickEnv :=
  { inside_rth := true, rth_reason := "inside_rth",
    execution_mode := "auto", risk_mode := "low",
    max_trades_per_day := 1, trades_today := 0,
    equity := 1000, last_equity := 1000,
    positions := [],
    after_close_time := false,
    snapshot := [],
    pending_store := .pylist [],
    recommendation := { recommendations := some [{ symbol := "QQQ", suggestion := "buy" }] },
    now := 50 }

/-- The pending trade held by c4_env: a buy of SPY above 445, which the
c4_env snapshot price 450 satisfies. -/
def c4_pending : BDV.PendingTrade :=
  { id := "w4", symbol := "SPY", side := .buy, qty := 2,
    trigger_price := 445 }

/-- Tick environment for the C4 witness: auto mode with a pending trade
whose trigger condition is satisfied by the snapshot quote, so only the
AttributeError keeps it from executing. -/
def c4_env : BDV.TickEnv :=
  { inside_rth := true, rth_reason := "inside_rth",
    execution_mode := "auto", risk_mode := "low",
    max_trades_per_day := 1, trades_today := 1,
    equity := 1000, last_equity := 1000,
    positions := [],
    after_close_time := false,
    snapshot := [("SPY", 450)],
    pending_store := .pylist [c4_pending],
    recommendation := {}, now := 50 }

/-- Tick environment for the C5 witness: auto mode, zero open positions,
and trades_today already at max_trades_per_day, with a directional
recommendation available that must not be consulted. -/
def c5_env : BDV.TickEnv :=
  { inside_rth := true, rth_reason := "inside_rth",
    execution_mode := "auto", risk_mode := "low",
    max_trades_per_day := 1, trades_today := 1,
    equity := 1000, last_equity := 1000,
    positions := [],
    after_close_time := false,
    snapshot := [],
    pending_store := .pylist [],
    recommendation := { recommendations := some [{ symbol := "NVDA", suggestion := "sell" }] },
    now := 50 }

/-! ### Claims C6 and C7 -/

/-- C6: for every configuration state, get_status (GET /config/status)
returns max_trades_per_day equal to the fixed lookup for the current
risk_mode (low=1, medium=3, high=5), recomputing it before returning,
regardless of what the stored max_trades_per_day field held. -/
theorem C6_cap_recomputed_on_status :
    (∀ s : BDV.ConfigStatus,
      (BDV.get_config_status s).max_trades_per_day
        = BDV.MAX_TRADES_BY_RISK s.risk_mode) ∧
    BDV.MAX_TRADES_BY_RISK .low = 1 ∧
    BDV.MAX_TRADES_BY_RISK .medium = 3 ∧
    BDV.MAX_TRADES_BY_RISK .high = 5 := by
  refine ⟨fun s => rfl, rfl, rfl, rfl⟩

/-- C7 counterexample: the claim says an unknown risk-mode string is
treated as a configuration error rather than silently mapped to a default
threshold set.  In the code, get_risk_params "turbo" — a string that is
none of "low", "medium", "high" — silently returns exactly the low-risk
default thresholds; there is no error path in the function at all. -/
theorem C7_counterexample_silent_fallback :
    BDV.get_risk_params "turbo" = BDV.get_risk_params "low" ∧
    ("turbo" ∉ (["low", "medium", "high"] : List String)) := by
  constructor
  · rfl
  · decide

/-- C7 amended: for every risk-mode string whose lowercase form is neither
"high" nor "medium" (in particular every unknown mode), get_risk_params
silently returns the low-risk thresholds (tp 0.15, sl 0.08, daily target
0.02, daily max loss 0.01); no configuration error is raised. -/
theorem C7_unknown_mode_gets_low_defaults (m : String)
    (h1 : BDV.py_lower m ≠ "high") (h2 : BDV.py_lower m ≠ "medium") :
    BDV.get_risk_params m =
      { tp_per_trade := 15/100, sl_per_trade := 8/100,
        daily_target := 2/100, daily_max_loss := 1/100 } := by
  unfold BDV.get_risk_params
  by_cases he : m = ""
  · subst he
    rfl
  · simp only [if_neg he, if_neg h1, if_neg h2]

/-- C7 amended, witness: the unknown mode "aggressive" satisfies the
hypotheses and receives the low-risk thresholds. -/
theorem C7_unknown_mode_witness :
    (BDV.py_lower "aggressive" ≠ "high") ∧ (BDV.py_lower "aggressive" ≠ "medium") ∧
    BDV.get_risk_params "aggressive" =
      { tp_per_trade := 15/100, sl_per_trade := 8/100,
        daily_target := 2/100, daily_max_loss := 1/100 } :=
  ⟨by decide, by decide,
    C7_unknown_mode_gets_low_defaults "aggressive" (by decide) (by decide)⟩

/-! ### Claim C10 -/

/-- C10: add (POST /pending-trades/) rejects a submission whose id equals
the id of a trade already in the book with an HTTP 400 conflict, and
mutates no state: the in-memory book and the persisted file are returned
exactly as they were. -/
theorem C10_duplicate_id_conflict_no_mutation (trade : BDV.PendingTrade)
    (s : BDV.PendingBookState)
    (h : s.book.any (fun t => t.id == trade.id) = true) :
    BDV.add_pending_trade trade s = (.conflict 400 trade.id, s) := by
  unfold BDV.add_pending_trade
  simp [h]

/-- C10 witness: a duplicate submission against a one-element book is
rejected with the 400 conflict and the state is unchanged. -/
theorem C10_duplicate_id_witness :
    (c10_book.book.any (fun t => t.id == c10_trade.id) = true) ∧
    BDV.add_pending_trade c10_trade c10_book
      = (.conflict 400 c10_trade.id, c10_book) :=
  ⟨by decide, C10_duplicate_id_conflict_no_mutation c10_trade c10_book (by decide)⟩

/-! ### Claim C8 -/

/-- C8 counterexample: the claim says a sell-side pending trade is
evaluated with the mirror of the buy-side trigger condition and, when
execution is allowed, submits an order and is marked triggered.  At the
quote 48 the mirror condition holds for c8_trade, execution is allowed,
yet the loop body leaves the trade untouched: condition_met is only ever
assigned inside the buy branch, so no order is submitted and the status
stays pending. -/
theorem C8_counterexample_sell_ignored :
    (c8_trade.side = .sell ∧ c8_trade.status = .pending ∧
      (48 : ℚ) ≤ c8_trade.trigger_price ∧ c8_trade.max_price = some 45 ∧
      (45 : ℚ) ≤ 48) ∧
    BDV.process_one 0 [("SPY", 48)] true c8_trade = { trade := c8_trade } ∧
    (BDV.process_one 0 [("SPY", 48)] true c8_trade).order = none ∧
    (BDV.process_one 0 [("SPY", 48)] true c8_trade).trade.status
      = BDV.TradeStatus.pending := by
  refine ⟨⟨rfl, rfl, by decide, rfl, by norm_num⟩, ?_, ?_, ?_⟩ <;> decide

/-- Helper for C8: the price/trigger part of the loop body is the
identity on a sell-side trade — condition_met can only be set in the buy
branch. -/
theorem process_one_price_sell (snapshot : List (String × ℚ))
    (allow_execute : Bool) (t : BDV.PendingTrade) (h : t.side = .sell) :
    BDV.process_one_price snapshot allow_execute t = { trade := t } := by
  unfold BDV.process_one_price
  cases hl : snapshot.lookup t.symbol with
  | none => rfl
  | some price => simp only [h]; rfl

/-- C8 amended: the pending-order evaluation has no sell-side trigger
logic at all.  For every sell-side trade the loop body submits no order
and never sets the status to triggered: the status is either left as it
was or set to expired by the expiry check. -/
theorem C8_sell_side_never_triggers (now : Int)
    (snapshot : List (String × ℚ)) (allow_execute : Bool)
    (t : BDV.PendingTrade) (h : t.side = .sell) :
    (BDV.process_one now snapshot allow_execute t).order = none ∧
    ((BDV.process_one now snapshot allow_execute t).trade.status = t.status ∨
      (BDV.process_one now snapshot allow_execute t).trade.status
        = BDV.TradeStatus.expired) := by
  unfold BDV.process_one
  by_cases hs : t.status ≠ BDV.TradeStatus.pending
  · simp only [if_pos hs]
    exact ⟨trivial, Or.inl trivial⟩
  · simp only [if_neg hs]
    cases hv : t.valid_until with
    | none =>
      rw [process_one_price_sell snapshot allow_execute t h]
      exact ⟨rfl, Or.inl rfl⟩
    | some vu =>
      by_cases hlt : vu < now
      · simp only [if_pos hlt]
        exact ⟨trivial, Or.inr trivial⟩
      · simp only [if_neg hlt]
        rw [process_one_price_sell snapshot allow_execute t h]
        exact ⟨rfl, Or.inl rfl⟩

/-- C8 amended, witness: the concrete sell-side trade c8_trade, with
execution allowed and its mirror trigger condition satisfied at the
quote, gets no order and keeps its pending status. -/
theorem C8_sell_side_witness :
    (c8_trade.side = .sell) ∧
    ((BDV.process_one 7 [("SPY", 48)] true c8_trade).order = none ∧
      ((BDV.process_one 7 [("SPY", 48)] true c8_trade).trade.status
          = c8_trade.status ∨
        (BDV.process_one 7 [("SPY", 48)] true c8_trade).trade.status
          = BDV.TradeStatus.expired)) :=
  ⟨rfl, C8_sell_side_never_triggers 7 [("SPY", 48)] true c8_trade rfl⟩

/-! ### Claim C9 -/

/-- C9: the spec says such a trade is marked expired (expiry precedence).
The expiry branch does precede the trigger check in the loop body — on
c9_trade the body would mark expired and submit nothing even though the
trigger condition holds — but the branch is dead code: PENDING_TRADES is
a Python list and _process_pending_trades calls .values() on it, so the
call raises AttributeError before any trade is examined and no trade is
ever marked expired. -/
theorem C9_expiry_check_is_dead_code :
    (c9_trade.status = .pending ∧ c9_trade.valid_until = some 100 ∧
      (100 : Int) < 200 ∧ c9_trade.trigger_price ≤ (15 : ℚ)) ∧
    BDV._process_pending_trades 200 (.pylist [c9_trade]) [("QQQ", 15)] true
      = .error (.attributeError "values") ∧
    (BDV.process_one 200 [("QQQ", 15)] true c9_trade).trade.status
      = BDV.TradeStatus.expired ∧
    (BDV.process_one 200 [("QQQ", 15)] true c9_trade).order = none := by
  refine ⟨⟨rfl, rfl, by norm_num, by decide⟩, rfl, ?_, ?_⟩ <;> decide

/-! ### Claim C1 -/

/-- C1: for every configuration whose execution_mode is not "auto", a
tick reached inside the trading session returns status "skipped" and
performs no BrokerGateway call at all: the account and positions are not
fetched, no close-all or per-symbol close happens, no order is submitted
on the pending or auto-entry path, /recommend is not called, the pending
book is untouched, and the persisted trades_today counter is unchanged. -/
theorem C1_manual_mode_never_touches_broker (env : BDV.TickEnv)
    (h1 : env.inside_rth = true)
    (h2 : BDV.py_lower env.execution_mode ≠ "auto") :
    (BDV.monitor_tick env).status = "skipped" ∧
    (BDV.monitor_tick env).account_fetched = false ∧
    (BDV.monitor_tick env).close_all_calls = 0 ∧
    (BDV.monitor_tick env).close_symbol_calls = [] ∧
    (BDV.monitor_tick env).pending_orders = [] ∧
    (BDV.monitor_tick env).auto_orders = [] ∧
    (BDV.monitor_tick env).recommend_called = false ∧
    (BDV.monitor_tick env).pending_store_after = env.pending_store ∧
    (BDV.monitor_tick env).trades_today_after = env.trades_today := by
  simp [BDV.monitor_tick, h1, h2]

/-- C1 witness: the concrete manual-mode environment c1_env satisfies
the hypotheses, and its tick is a broker-free skip. -/
theorem C1_manual_mode_witness :
    (c1_env.inside_rth = true) ∧
    (BDV.py_lower c1_env.execution_mode ≠ "auto") ∧
    ((BDV.monitor_tick c1_env).status = "skipped" ∧
      (BDV.monitor_tick c1_env).account_fetched = false ∧
      (BDV.monitor_tick c1_env).close_all_calls = 0 ∧
      (BDV.monitor_tick c1_env).close_symbol_calls = [] ∧
      (BDV.monitor_tick c1_env).pending_orders = [] ∧
      (BDV.monitor_tick c1_env).auto_orders = [] ∧
      (BDV.monitor_tick c1_env).recommend_called = false ∧
      (BDV.monitor_tick c1_env).pending_store_after = c1_env.pending_store ∧
      (BDV.monitor_tick c1_env).trades_today_after = c1_env.trades_today) :=
  ⟨rfl, by decide, C1_manual_mode_never_touches_broker c1_env rfl (by decide)⟩

/-! ### Claim C2 -/

/-- C2: in every auto-mode tick with at least one open position in which
the forced-close time has been reached, or pnl_today has reached
equity times daily_target, or pnl_today has fallen to minus equity times
daily_max_loss, the tick closes all positions (one close-all call),
reports the reason, and returns immediately: no per-position TP/SL
close, no pending-order evaluation, no auto-entry, no order submission,
and no /recommend call happen in that tick. -/
theorem C2_close_all_is_terminal (env : BDV.TickEnv)
    (h1 : env.inside_rth = true)
    (h2 : BDV.py_lower env.execution_mode = "auto")
    (h3 : env.positions ≠ [])
    (h4 : env.after_close_time = true ∨
      env.equity * (BDV.get_risk_params (BDV.py_lower env.risk_mode)).daily_target
        ≤ env.equity - env.last_equity ∨
      env.equity - env.last_equity
        ≤ -env.equity * (BDV.get_risk_params (BDV.py_lower env.risk_mode)).daily_max_loss) :
    ∃ r : String,
      BDV.monitor_tick env =
        { status := "ok", account_fetched := true, close_all_calls := 1,
          actions := some { closed_all := true, reason_all := some r },
          pending_store_after := env.pending_store,
          trades_today_after := env.trades_today } := by
  have hn1 : ¬(env.inside_rth = false) := by simp [h1]
  have hn2 : ¬(BDV.py_lower env.execution_mode ≠ "auto") := not_not_intro h2
  unfold BDV.monitor_tick
  rw [if_neg hn1, if_neg hn2]
  by_cases c1 : env.after_close_time = true
  · exact ⟨"Hora limite 15:45 NY", by rw [if_pos ⟨h3, c1⟩]⟩
  · rw [if_neg (fun hc => c1 hc.2)]
    by_cases c2 : env.equity * (BDV.get_risk_params (BDV.py_lower env.risk_mode)).daily_target
        ≤ env.equity - env.last_equity
    · exact ⟨"Meta diaria alcanzada", by rw [if_pos ⟨h3, c2⟩]⟩
    · rw [if_neg (fun hc => c2 hc.2)]
      by_cases c3 : env.equity - env.last_equity
          ≤ -env.equity * (BDV.get_risk_params (BDV.py_lower env.risk_mode)).daily_max_loss
      · exact ⟨"Perdida diaria maxima alcanzada", by rw [if_pos ⟨h3, c3⟩]⟩
      · rcases h4 with hc | hc | hc
        · exact absurd hc c1
        · exact absurd hc c2
        · exact absurd hc c3

/-- C2 witness: the concrete auto-mode environment c2_env, with one open
position and the forced-close time reached, closes all and returns. -/
theorem C2_close_all_witness :
    (c2_env.inside_rth = true) ∧
    (BDV.py_lower c2_env.execution_mode = "auto") ∧
    (c2_env.positions ≠ []) ∧
    (c2_env.after_close_time = true) ∧
    (∃ r : String,
      BDV.monitor_tick c2_env =
        { status := "ok", account_fetched := true, close_all_calls := 1,
          actions := some { closed_all := true, reason_all := some r },
          pending_store_after := c2_env.pending_store,
          trades_today_after := c2_env.trades_today }) :=
  ⟨rfl, by decide, by decide, rfl,
    C2_close_all_is_terminal c2_env rfl (by decide) (by decide) (Or.inl rfl)⟩

/-! ### Claim C3 -/

/-- C3: the claim says the auto-entry step submits one unit-quantity
market order and increments the persisted trades_today counter.  On the
failing input c3_env (auto mode, zero positions, trades_today 0 of 1,
directional recommendation) the tick does submit exactly one qty-1 buy
order for QQQ and reports the attempt — but trades_today after the tick
still equals its incoming value 0: no statement in monitor_tick, nor in
the /trade handlers it calls, ever increments config_state.trades_today
(config.py writes it only in reset_trades_today, which zeroes it, and in
_load_config_from_disk), so the increment the spec requires is missing
from the code. -/
theorem C3_auto_entry_order_but_no_increment :
    BDV.monitor_tick c3_env =
      { status := "ok", account_fetched := true,
        actions := some { auto_entry := some (.attempted { symbol := "QQQ", side := "buy" } 1) },
        auto_orders := [{ symbol := "QQQ", side := .buy, qty := 1 }],
        recommend_called := true,
        pending_store_after := .pylist [],
        trades_today_after := 0 } ∧
    c3_env.trades_today = 0 ∧ c3_env.max_trades_per_day = 1 := by
  refine ⟨?_, rfl, rfl⟩
  decide

/-! ### Claim C4 -/

/-- C4: every tick leaves the pending-order book unchanged, reports an
empty pending_trades_executed list whenever the report carries actions
at all, and never submits an order through the pending-trade path.  The
book is a Python list, so _process_pending_trades raises AttributeError
at PENDING_TRADES.values() before examining any trade, and monitor_tick
catches the exception and stores [] in the report. -/
theorem C4_pending_book_never_changes (env : BDV.TickEnv)
    (xs : List BDV.PendingTrade)
    (h : env.pending_store = .pylist xs) :
    (BDV.monitor_tick env).pending_store_after = env.pending_store ∧
    (BDV.monitor_tick env).pending_orders = [] ∧
    ((BDV.monitor_tick env).actions = none ∨
      ∃ a, (BDV.monitor_tick env).actions = some a ∧
        a.pending_trades_executed = []) ∧
    BDV._process_pending_trades env.now env.pending_store env.snapshot true
      = .error (.attributeError "values") := by
  have hp : BDV._process_pending_trades env.now env.pending_store
      env.snapshot true = .error (.attributeError "values") := by
    rw [h]; rfl
  unfold BDV.monitor_tick
  by_cases b1 : env.inside_rth = false
  · rw [if_pos b1]
    exact ⟨rfl, rfl, Or.inl rfl, hp⟩
  · rw [if_neg b1]
    by_cases b2 : BDV.py_lower env.execution_mode ≠ "auto"
    · rw [if_pos b2]
      exact ⟨rfl, rfl, Or.inl rfl, hp⟩
    · rw [if_neg b2]
      by_cases b3 : env.positions ≠ [] ∧ env.after_close_time = true
      · rw [if_pos b3]
        exact ⟨rfl, rfl, Or.inr ⟨_, rfl, rfl⟩, hp⟩
      · rw [if_neg b3]
        by_cases b4 : env.positions ≠ [] ∧
            env.equity * (BDV.get_risk_params (BDV.py_lower env.risk_mode)).daily_target
              ≤ env.equity - env.last_equity
        · rw [if_pos b4]
          exact ⟨rfl, rfl, Or.inr ⟨_, rfl, rfl⟩, hp⟩
        · rw [if_neg b4]
          by_cases b5 : env.positions ≠ [] ∧
              env.equity - env.last_equity
                ≤ -env.equity * (BDV.get_risk_params (BDV.py_lower env.risk_mode)).daily_max_loss
          · rw [if_pos b5]
            exact ⟨rfl, rfl, Or.inr ⟨_, rfl, rfl⟩, hp⟩
          · rw [if_neg b5, hp]
            exact ⟨rfl, rfl, Or.inr ⟨_, rfl, rfl⟩, rfl⟩

/-- C4 witness: the concrete auto-mode environment c4_env holds a
pending trade whose trigger condition its snapshot satisfies, yet the
book survives the tick unchanged, nothing is reported executed, and the
evaluation raises AttributeError. -/
theorem C4_pending_book_witness :
    (c4_env.pending_store = .pylist [c4_pending]) ∧
    ((BDV.monitor_tick c4_env).pending_store_after = c4_env.pending_store ∧
      (BDV.monitor_tick c4_env).pending_orders = [] ∧
      ((BDV.monitor_tick c4_env).actions = none ∨
        ∃ a, (BDV.monitor_tick c4_env).actions = some a ∧
          a.pending_trades_executed = []) ∧
      BDV._process_pending_trades c4_env.now c4_env.pending_store
        c4_env.snapshot true = .error (.attributeError "values")) :=
  ⟨rfl, C4_pending_book_never_changes c4_env _ rfl⟩

/-! ### Claim C5 -/

/-- C5: in every auto-mode tick with zero open positions and
trades_today at or above max_trades_per_day, the auto-entry step reports
skipped with the cap-reached reason (max_trades_per_day_reached), the
recommendation service is not called, and no auto-entry order is
submitted; no close-all or per-symbol close happens either since there
are no positions. -/
theorem C5_daily_cap_blocks_auto_entry (env : BDV.TickEnv)
    (h1 : env.inside_rth = true)
    (h2 : BDV.py_lower env.execution_mode = "auto")
    (h3 : env.positions = [])
    (h4 : env.max_trades_per_day ≤ env.trades_today) :
    (∃ a : BDV.TickActions,
      (BDV.monitor_tick env).actions = some a ∧
        a.auto_entry = some .skippedCapReached) ∧
    (BDV.monitor_tick env).recommend_called = false ∧
    (BDV.monitor_tick env).auto_orders = [] ∧
    (BDV.monitor_tick env).close_all_calls = 0 ∧
    (BDV.monitor_tick env).close_symbol_calls = [] := by
  cases hm : BDV._process_pending_trades env.now env.pending_store
      env.snapshot true with
  | ok r => simp [BDV.monitor_tick, h1, h2, h3, h4, hm, BDV.tp_sl_closures]
  | error e => simp [BDV.monitor_tick, h1, h2, h3, h4, hm, BDV.tp_sl_closures]

/-- C5 witness: the concrete environment c5_env (auto, flat, cap
reached, a sell recommendation available) reports the cap skip without
consulting /recommend or ordering. -/
theorem C5_daily_cap_witness :
    (c5_env.inside_rth = true) ∧
    (BDV.py_lower c5_env.execution_mode = "auto") ∧
    (c5_env.positions = []) ∧
    (c5_env.max_trades_per_day ≤ c5_env.trades_today) ∧
    ((∃ a : BDV.TickActions,
      (BDV.monitor_tick c5_env).actions = some a ∧
        a.auto_entry = some .skippedCapReached) ∧
    (BDV.monitor_tick c5_env).recommend_called = false ∧
    (BDV.monitor_tick c5_env).auto_orders = [] ∧
    (BDV.monitor_tick c5_env).close_all_calls = 0 ∧
    (BDV.monitor_tick c5_env).close_symbol_calls = []) :=
  ⟨rfl, by decide, rfl, by decide,
    C5_daily_cap_blocks_auto_entry c5_env rfl (by decide) rfl (by decide)⟩
